import Mathlib

/-!
Verification development for the Penjadwalan-Algen timetable optimizer.

The definitions below are a shallow embedding of the Python sources:
`jadwal_model.py` (schedule-entry data model), `genetic_algorithm.py`
(genetic engine), `tabu_search.py` (tabu engine) and `data_loader.py`
(catalog schema).  Randomness is passed in explicitly as oracle
arguments; Python floats that only ever hold exact small rationals are
modelled as `ℚ`; Python exceptions are modelled with `Except`.
-/

namespace Penjadwalan

/-- Day of the week, `Hari` in `jadwal_model.py` (the five values used by the
engines: Senin..Jumat). -/
inductive Hari
  | senin | selasa | rabu | kamis | jumat
deriving DecidableEq, Repr

/-- `Matakuliah` from `jadwal_model.py`: course code, display name, credit hours. -/
structure Matakuliah where
  kode : String
  nama : String
  sks : Nat
deriving DecidableEq, Repr

/-- Python `Matakuliah.__eq__` compares by `kode` only. -/
def matkulEq (a b : Matakuliah) : Bool :=
  a.kode == b.kode

/-- `Jadwal` from `jadwal_model.py`: one schedule entry.  Times are minutes
from midnight; `kelas` is the string the genetic engine stores
(`str(random.randint(1, 15))`). -/
structure Jadwal where
  hari : Hari
  waktu_mulai : Int
  waktu_selesai : Int
  matakuliah : Matakuliah
  dosen : String
  ruang : String
  kelas : String
  semester : Nat
deriving DecidableEq, Repr

/-- Python dataclass equality on `Jadwal`: every field compared with `==`,
where the `matakuliah` field uses `Matakuliah.__eq__` (code only). -/
def jadwalPyEq (a b : Jadwal) : Bool :=
  a.hari == b.hari && a.waktu_mulai == b.waktu_mulai
    && a.waktu_selesai == b.waktu_selesai
    && matkulEq a.matakuliah b.matakuliah
    && a.dosen == b.dosen && a.ruang == b.ruang
    && a.kelas == b.kelas && a.semester == b.semester

/-- `Jadwal.overlaps` (`jadwal_model.py` lines 52-57): returns `False`
whenever the day or the room differ, otherwise tests strict interval
intersection. -/
def Jadwal.overlaps (self other : Jadwal) : Bool :=
  if self.hari != other.hari || self.ruang != other.ruang then
    false
  else
    decide (self.waktu_mulai < other.waktu_selesai)
      && decide (other.waktu_mulai < self.waktu_selesai)

/-- The contribution of one ordered pair `(jadwal_i, jadwal_j)` to the
conflict counter of `AlgoritmaGenetika.calculate_fitness`
(`genetic_algorithm.py` lines 130-145): under a shared day, the room check,
the instructor check and the class/semester check each add 1 when
`overlaps` also holds. -/
def pair_conflicts (ji jj : Jadwal) : Nat :=
  if ji.hari == jj.hari then
    (if ji.ruang == jj.ruang && ji.overlaps jj then 1 else 0)
      + (if ji.dosen == jj.dosen && ji.overlaps jj then 1 else 0)
      + (if ji.kelas == jj.kelas && ji.semester == jj.semester
            && ji.overlaps jj then 1 else 0)
  else 0

/-- The double loop over index pairs `i < j` in `calculate_fitness`. -/
def conflict_count : List Jadwal → Nat
  | [] => 0
  | x :: xs => (xs.map (pair_conflicts x)).sum + conflict_count xs

/-- `AlgoritmaGenetika.calculate_fitness` (`genetic_algorithm.py`
lines 123-149): `1 / (1 + conflicts)`. -/
def calculate_fitness (individu : List Jadwal) : ℚ :=
  1 / (1 + conflict_count individu)

/-- The conflict rule exactly as the specification sentence describing the
fitness contract states it (refinement target, to be compared with
`pair_conflicts`): shared day, intersecting time windows, and at least one
of same room, same instructor, or same class label with same semester; each
conflicting pair contributes exactly 1. -/
def claimed_pair_conflict (a b : Jadwal) : Bool :=
  a.hari == b.hari
    && decide (a.waktu_mulai < b.waktu_selesai)
    && decide (b.waktu_mulai < a.waktu_selesai)
    && (a.ruang == b.ruang || a.dosen == b.dosen
        || (a.kelas == b.kelas && a.semester == b.semester))

/-- Unordered-pair count under `claimed_pair_conflict`. -/
def claimed_conflict_count : List Jadwal → Nat
  | [] => 0
  | x :: xs =>
      (xs.map (fun y => if claimed_pair_conflict x y then 1 else 0)).sum
        + claimed_conflict_count xs

/-- The fitness the specification sentence claims: `1 / (1 + claimed count)`. -/
def claimed_fitness (S : List Jadwal) : ℚ :=
  1 / (1 + claimed_conflict_count S)

/-- The amended conflict scoring: a pair scores only when day and room are
both shared and the time windows intersect, and it then contributes one
point for the room clash, one further point when the instructor is also
shared, and one further point when the class label and semester are also
shared. -/
def amended_pair_points (a b : Jadwal) : Nat :=
  if a.hari == b.hari && a.ruang == b.ruang
      && decide (a.waktu_mulai < b.waktu_selesai)
      && decide (b.waktu_mulai < a.waktu_selesai) then
    1 + (if a.dosen == b.dosen then 1 else 0)
      + (if a.kelas == b.kelas && a.semester == b.semester then 1 else 0)
  else 0

/-- Unordered-pair total of `amended_pair_points`. -/
def amended_conflict_count : List Jadwal → Nat
  | [] => 0
  | x :: xs => (xs.map (amended_pair_points x)).sum + amended_conflict_count xs

/-- A concrete course record. -/
def mkA : Matakuliah := ⟨"21EM222005", "Statistik Ekonomi", 3⟩

/-- A second concrete course record. -/
def mkB : Matakuliah := ⟨"21EM222006", "Mikro Ekonomi", 3⟩

/-- Concrete entry: Monday 08:00-10:00, room 301, instructor X. -/
def jA : Jadwal := ⟨.senin, 480, 600, mkA, "Dosen X", "301", "1", 2⟩

/-- Concrete entry: Monday 09:00-11:00, room 305, the same instructor X. -/
def jB : Jadwal := ⟨.senin, 540, 660, mkB, "Dosen X", "305", "2", 4⟩

/-- The early-exit test shared by both engines (`genetic_algorithm.py`
line 286 and `tabu_search.py` line 172): `best_fitness <= 0`. -/
def stop_condition (best_fitness : ℚ) : Bool :=
  decide (best_fitness ≤ 0)

/-- Number of body executions of a budgeted loop that breaks after
iteration `g` exactly when `stop_condition` holds on the best fitness
recorded at the end of that iteration — the shape of the generation loop of
`AlgoritmaGenetika.run` (`genetic_algorithm.py` lines 234-288) and of the
iteration loop of `TabuSearch.search` (`tabu_search.py` lines 116-177). -/
def loop_iterations : Nat → (Nat → ℚ) → Nat
  | 0, _ => 0
  | n + 1, best =>
      1 + (if stop_condition (best 0) then 0
           else loop_iterations n (fun k => best (k + 1)))

/-- A junk entry returned by out-of-range heap reads. -/
def defaultJadwal : Jadwal := ⟨.senin, 0, 60, mkA, "", "", "", 2⟩

/-- Dereference a Python list of `Jadwal` references against the object
heap (one cell per live `Jadwal` instance, addressed by index): the value
sequence the list denotes. -/
def readSolution (heap : List Jadwal) (refs : List Nat) : List Jadwal :=
  refs.map (fun r => heap.getD r defaultJadwal)

/-- The room-swap neighbor construction of `TabuSearch.get_neighbors`
(`tabu_search.py` lines 46-49): `neighbor = solution.copy()` copies only the
list of references, and the tuple assignment
`neighbor[i].ruang, neighbor[j].ruang = neighbor[j].ruang, neighbor[i].ruang`
mutates the two referenced heap cells in place.  Returns the heap after the
mutation and the neighbor's reference list. -/
def swap_ruang_step (heap : List Jadwal) (solution : List Nat) (i j : Nat) :
    List Jadwal × List Nat :=
  let neighbor := solution
  let ri := solution.getD i 0
  let rj := solution.getD j 0
  let ci := heap.getD ri defaultJadwal
  let cj := heap.getD rj defaultJadwal
  let heap1 := heap.set ri { ci with ruang := cj.ruang }
  let heap2 := heap1.set rj { cj with ruang := ci.ruang }
  (heap2, neighbor)

/-- The time branch of `AlgoritmaGenetika.mutate` (`genetic_algorithm.py`
lines 178-192): `mutated = individu.copy()` copies only the reference list,
and `mutated[i].waktu_mulai = ...`, `mutated[i].waktu_selesai = ...` mutate
the referenced heap cell in place.  Returns the heap after the mutation and
the mutated individual's reference list. -/
def mutate_time_step (heap : List Jadwal) (individu : List Nat) (i : Nat)
    (mulai selesai : Int) : List Jadwal × List Nat :=
  let mutated := individu
  let r := individu.getD i 0
  let c := heap.getD r defaultJadwal
  (heap.set r { c with waktu_mulai := mulai, waktu_selesai := selesai },
   mutated)

/-- Python list equality on solutions: equal length and elementwise
dataclass equality. -/
def solEq : List Jadwal → List Jadwal → Bool
  | [], [] => true
  | x :: xs, y :: ys => jadwalPyEq x y && solEq xs ys
  | _, _ => false

/-- Python tuple equality on tabu moves. -/
def moveEq (m n : List Jadwal × List Jadwal) : Bool :=
  solEq m.1 n.1 && solEq m.2 n.2

/-- The Python `in` membership test on the tabu list
(`tabu_search.py` line 126). -/
def moveInTabu (tabu_list : List (List Jadwal × List Jadwal))
    (move : List Jadwal × List Jadwal) : Bool :=
  tabu_list.any (fun m => moveEq m move)

/-- `TabuSearch.update_tabu_list` (`tabu_search.py` lines 92-98): append the
move, then pop the oldest entry when the length exceeds `tabu_size`. -/
def update_tabu_list (tabu_size : Nat)
    (tabu_list : List (List Jadwal × List Jadwal))
    (move : List Jadwal × List Jadwal) : List (List Jadwal × List Jadwal) :=
  let l := tabu_list ++ [move]
  if tabu_size < l.length then l.tail else l

/-- The end-of-iteration update of `TabuSearch.search` (`tabu_search.py`
lines 156-158): `current_solution` is reassigned to the accepted neighbor
BEFORE the push, so the pushed pair is built from the already-updated
current solution.  Returns the new current solution and the new tabu
list. -/
def end_iteration (tabu_size : Nat) (current best_neighbor : List Jadwal)
    (tabu_list : List (List Jadwal × List Jadwal)) :
    List Jadwal × List (List Jadwal × List Jadwal) :=
  let _previous := current
  let current' := best_neighbor
  (current', update_tabu_list tabu_size tabu_list (current', best_neighbor))

/-- `TabuSearch.aspiration_criteria` (`tabu_search.py` lines 72-76):
`fitness < best_fitness * (1 - aspiration_threshold)`. -/
def aspiration_criteria (best_fitness aspiration_threshold fitness : ℚ) :
    Bool :=
  decide (fitness < best_fitness * (1 - aspiration_threshold))

/-- Comparison against the running best fitness of the scan, which starts at
`float('inf')` (`tabu_search.py` line 119): `none` plays the infinity. -/
def lt_best (f : ℚ) : Option (List Jadwal × ℚ) → Bool
  | none => true
  | some (_, b) => decide (f < b)

/-- The neighbor scan of one `TabuSearch.search` iteration (`tabu_search.py`
lines 118-135): each neighbor is evaluated in order; when the move
`(current, neighbor)` is not in the tabu list and the fitness improves on
the running best, the neighbor becomes the candidate; when the aspiration
criterion fires, the neighbor is taken immediately and the scan stops.  (In
the source the candidate update is executed before the aspiration test, but
its result is only consumed when the aspiration does not fire, so the two
readings coincide.) -/
def scan_neighbors (objective : List Jadwal → ℚ) (current : List Jadwal)
    (tabu_list : List (List Jadwal × List Jadwal))
    (best_fitness aspiration_threshold : ℚ) :
    List (List Jadwal) → Option (List Jadwal × ℚ) → Option (List Jadwal × ℚ)
  | [], acc => acc
  | n :: rest, acc =>
      if aspiration_criteria best_fitness aspiration_threshold
          (objective n) then
        some (n, objective n)
      else
        scan_neighbors objective current tabu_list best_fitness
          aspiration_threshold rest
          (if !moveInTabu tabu_list (current, n)
              && lt_best (objective n) acc
           then some (n, objective n) else acc)

/-- The accepted neighbor of one iteration (`tabu_search.py` lines 116-144):
the scan result, falling back to a uniformly random neighbor
(`random.choice`, its index supplied here as the oracle `fallback`) when no
admissible neighbor was found. -/
def select_neighbor (objective : List Jadwal → ℚ) (current : List Jadwal)
    (tabu_list : List (List Jadwal × List Jadwal))
    (best_fitness aspiration_threshold : ℚ)
    (neighbors : List (List Jadwal)) (fallback : Nat) : List Jadwal × ℚ :=
  match scan_neighbors objective current tabu_list best_fitness
      aspiration_threshold neighbors none with
  | some (n, f) => (n, f)
  | none =>
      let n := neighbors.getD fallback []
      (n, objective n)

/-- The elite-count computation of `AlgoritmaGenetika.run`
(`genetic_algorithm.py` line 251): `max(2, int(ukuran_populasi *
elitism_rate))`.  Python `int()` truncates toward zero, and the product is
nonnegative for a rate in `[0, 1]`, so this is the floor.  The rate is
modelled as an exact rational; the concrete rates used in the theorems
below are exactly representable in binary floating point, so the modelled
product agrees with the float product. -/
def num_elites (ukuran_populasi : Nat) (elitism_rate : ℚ) : Nat :=
  max 2 (Int.toNat ⌊(ukuran_populasi : ℚ) * elitism_rate⌋)

/-- The elite count the specification sentence states:
`max(2, round(elitism_rate * population_size))` (refinement target, to be
compared with `num_elites`). -/
def num_elites_claimed (ukuran_populasi : Nat) (elitism_rate : ℚ) : Nat :=
  max 2 (Int.toNat (round (elitism_rate * (ukuran_populasi : ℚ))))

/-- The comparison key used by the elite sort: `sorted(populasi,
key=lambda x: self.calculate_fitness(x))` sorts by fitness ascending. -/
def fitness_le (a b : List Jadwal) : Bool :=
  decide (calculate_fitness a ≤ calculate_fitness b)

/-- The elite selection of `AlgoritmaGenetika.run` (`genetic_algorithm.py`
line 252): the first `n` elements of the population sorted by ascending
fitness (Python `sorted` is a stable merge sort). -/
def select_elites (populasi : List (List Jadwal)) (n : Nat) :
    List (List Jadwal) :=
  (populasi.mergeSort fitness_le).take n

/-- The construction of the next generation (`genetic_algorithm.py`
lines 255-275): the new population starts as the elite list, offspring are
appended, and the result is truncated to the population size. -/
def next_population (elites offspring : List (List Jadwal))
    (ukuran_populasi : Nat) : List (List Jadwal) :=
  (elites ++ offspring).take ukuran_populasi

/-- Concrete entry differing from `jA` only in the instructor. -/
def jC : Jadwal := ⟨.senin, 480, 600, mkA, "Dosen Y", "301", "1", 2⟩

/-- Python `min(selected, key=...)` (`genetic_algorithm.py` line 156):
raises `ValueError` on an empty sequence, otherwise returns the first
element attaining the minimal key. -/
def python_min_by (f : List Jadwal → ℚ) :
    List (List Jadwal) → Except String (List Jadwal)
  | [] => .error "min() arg is an empty sequence"
  | x :: xs => .ok (xs.foldl (fun acc y => if f y < f acc then y else acc) x)

/-- `AlgoritmaGenetika.tournament_selection` (`genetic_algorithm.py`
lines 151-156): `random.sample(populasi, tournament_size)` raises
`ValueError` when the sample size exceeds the population size; the sampled
individuals themselves come from the caller's randomness and are supplied
here as the oracle `sample`. -/
def tournament_selection (populasi : List (List Jadwal))
    (tournament_size : Nat) (sample : List (List Jadwal)) :
    Except String (List Jadwal) :=
  if populasi.length < tournament_size then
    .error "Sample larger than population or is negative"
  else
    python_min_by calculate_fitness sample

/-- `AlgoritmaGenetika.crossover` (`genetic_algorithm.py` lines 158-172).
The draws of `random.random()` (a float in `[0, 1)`) and of
`random.randint(1, len(parent1) - 1)` are supplied as the oracles `r` and
`point`; `random.randint(1, n)` raises `ValueError` when `n < 1`, i.e.
when the first parent has fewer than 2 entries, and a valid draw satisfies
`1 <= point <= len(parent1) - 1`. -/
def crossover (crossover_rate r : ℚ) (point : Nat)
    (parent1 parent2 : List Jadwal) :
    Except String (List Jadwal × List Jadwal) :=
  if crossover_rate < r then
    .ok (parent1, parent2)
  else if parent1.length < 2 then
    .error "empty range in randrange(1, 0)"
  else
    .ok (parent1.take point ++ parent2.drop point,
         parent2.take point ++ parent1.drop point)

/-- Course record of the catalog schema (`data_loader.py`): code, name,
credit hours, eligible instructors. -/
structure Course where
  kode : String
  nama : String
  sks : Nat
  dosen : List String
deriving DecidableEq, Repr

/-- The catalog record consumed by the engines (`data_loader.py`,
`_generate_default_data` and `load_data`): three semester buckets, the
room pool `ruang_kuliah`, and the class-label pools. -/
structure CatalogData where
  semester_2 : List Course
  semester_4 : List Course
  semester_6 : List Course
  ruang_kuliah : List String
  kelas_pagi : List String
  kelas_malam : List String
deriving DecidableEq, Repr

/-- `random.choice` with its draw supplied as an oracle index, reduced
modulo the list length so that every oracle value selects an element. -/
def choice {α : Type} (l : List α) (d : α) (k : Nat) : α :=
  l.getD (k % l.length) d

/-- The five fixed time slots of `generate_random_jadwal`
(`genetic_algorithm.py` lines 89-95), in minutes from midnight. -/
def waktu_slots : List (Int × Int) :=
  [(480, 600), (600, 720), (780, 900), (900, 1020), (1020, 1140)]

/-- The five weekdays drawn by `generate_random_jadwal`
(`genetic_algorithm.py` line 98). -/
def hari_list : List Hari :=
  [.senin, .selasa, .rabu, .kamis, .jumat]

/-- The hard-coded 15-room pool that appears verbatim in
`generate_random_jadwal` (`genetic_algorithm.py` lines 101-104) and in the
room branch of `mutate` (lines 201-204). -/
def ruang_list : List String :=
  ["301", "305", "306", "307", "314", "C204", "C302", "C407",
   "C507", "C604", "C701", "C801", "C504", "C606", "C702"]

/-- One entry built by `generate_random_jadwal` (`genetic_algorithm.py`
lines 87-119) for one course: time slot, day, room, instructor and class
label are drawn through the oracle `o` (one slot per draw site).  The
semester field is `int(semester.split("_")[-1])` where `semester` is the
leftover loop variable of the preceding semester loop, which always holds
`"semester_6"` at this point, so every entry receives semester 6. -/
def generate_entry (course : Course) (o : Nat → Nat) : Jadwal where
  hari := choice hari_list .senin (o 1)
  waktu_mulai := (choice waktu_slots (480, 600) (o 0)).1
  waktu_selesai := (choice waktu_slots (480, 600) (o 0)).2
  matakuliah := ⟨course.kode, course.nama, course.sks⟩
  dosen := choice course.dosen "" (o 3)
  ruang := choice ruang_list "301" (o 2)
  kelas := toString (1 + o 4 % 15)
  semester := 6

/-- `AlgoritmaGenetika.generate_random_jadwal` (`genetic_algorithm.py`
lines 76-121): one entry per course of the three semester buckets in
catalog order, with the oracle indexed by course position.  Only the three
semester buckets of the catalog are read. -/
def generate_random_jadwal (data : CatalogData) (o : Nat → Nat → Nat) :
    List Jadwal :=
  ((data.semester_2 ++ data.semester_4 ++ data.semester_6).enum).map
    (fun p => generate_entry p.2 (o p.1))

/-- One per-entry decision of `AlgoritmaGenetika.mutate`
(`genetic_algorithm.py` lines 180-207): `skip` when the `mutation_rate`
draw does not fire, otherwise the selected branch with its choice draw. -/
inductive Mutation
  | time (k : Nat)
  | day (k : Nat)
  | room (k : Nat)
  | skip

/-- Apply one mutation decision to one entry, at value level (the in-place
aliasing of the source is treated separately in the heap model above):
the three branches redraw the time slot, the day, or the room from the
same fixed pools as the generator. -/
def apply_mutation (j : Jadwal) : Mutation → Jadwal
  | .time k =>
      { j with waktu_mulai := (choice waktu_slots (480, 600) k).1
               waktu_selesai := (choice waktu_slots (480, 600) k).2 }
  | .day k => { j with hari := choice hari_list .senin k }
  | .room k => { j with ruang := choice ruang_list "301" k }
  | .skip => j

/-- `AlgoritmaGenetika.mutate` at value level: each entry receives its
oracle-driven mutation decision. -/
def mutate (individu : List Jadwal) (o : Nat → Mutation) : List Jadwal :=
  individu.enum.map (fun p => apply_mutation p.2 (o p.1))

/-- Concrete one-course catalog. -/
def catalog1 : CatalogData :=
  ⟨[⟨"21EM222005", "Statistik Ekonomi", 3, ["Dosen X"]⟩], [], [],
    ["301"], ["1"], ["2"]⟩

/-- The same catalog with a different `ruang_kuliah` pool. -/
def catalog2 : CatalogData :=
  ⟨[⟨"21EM222005", "Statistik Ekonomi", 3, ["Dosen X"]⟩], [], [],
    ["999"], ["1"], ["2"]⟩

/-! ### Helper lemmas -/

/-- An oracle-driven choice from a nonempty list is a member of it. -/
theorem choice_mem {α : Type} (l : List α) (d : α) (k : Nat)
    (h : l ≠ []) : choice l d k ∈ l := by
  rw [choice]
  have hlen : 0 < l.length := List.length_pos.mpr h
  have hk : k % l.length < l.length := Nat.mod_lt _ hlen
  rw [List.getD_eq_getElem l d hk]
  exact List.getElem_mem hk

/-- Every fitness value the evaluator produces is strictly positive. -/
theorem calculate_fitness_pos (S : List Jadwal) : 0 < calculate_fitness S := by
  unfold calculate_fitness
  positivity

/-- The per-pair conflict contribution of the code agrees with the amended
scoring rule. -/
theorem pair_conflicts_eq_amended (a b : Jadwal) :
    pair_conflicts a b = amended_pair_points a b := by
  unfold pair_conflicts amended_pair_points Jadwal.overlaps
  by_cases h1 : a.hari = b.hari <;>
    by_cases h2 : a.ruang = b.ruang <;>
      by_cases t1 : a.waktu_mulai < b.waktu_selesai <;>
        by_cases t2 : b.waktu_mulai < a.waktu_selesai <;>
          simp [h1, h2, t1, t2]

/-- The conflict counter of the code agrees with the amended counter. -/
theorem conflict_count_eq_amended (S : List Jadwal) :
    conflict_count S = amended_conflict_count S := by
  induction S with
  | nil => rfl
  | cons x xs ih =>
      unfold conflict_count amended_conflict_count
      rw [ih]
      congr 1
      apply congrArg
      apply List.map_congr_left
      intro y _
      exact pair_conflicts_eq_amended x y

/-- A scan started from a present candidate never ends empty-handed. -/
theorem scan_neighbors_ne_none (objective : List Jadwal → ℚ)
    (current : List Jadwal) (tabu_list : List (List Jadwal × List Jadwal))
    (bf th : ℚ) (l : List (List Jadwal)) :
    ∀ acc, acc ≠ none →
      scan_neighbors objective current tabu_list bf th l acc ≠ none := by
  induction l with
  | nil =>
      intro acc h
      simpa [scan_neighbors] using h
  | cons n rest ih =>
      intro acc h
      rw [scan_neighbors]
      split
      · simp
      · apply ih
        split
        · simp
        · exact h

/-- When the scan ends empty-handed it started empty-handed and every
scanned neighbor's move was tabu without meeting the aspiration. -/
theorem scan_neighbors_none_all_tabu (objective : List Jadwal → ℚ)
    (current : List Jadwal) (tabu_list : List (List Jadwal × List Jadwal))
    (bf th : ℚ) (l : List (List Jadwal)) :
    ∀ acc, scan_neighbors objective current tabu_list bf th l acc = none →
      ∀ m ∈ l, moveInTabu tabu_list (current, m) = true
        ∧ aspiration_criteria bf th (objective m) = false := by
  induction l with
  | nil =>
      intro acc _ m hm
      cases hm
  | cons n rest ih =>
      intro acc hnone m hm
      rw [scan_neighbors] at hnone
      by_cases hasp :
          aspiration_criteria bf th (objective n) = true
      · rw [if_pos hasp] at hnone
        cases hnone
      · rw [if_neg hasp] at hnone
        have hacc' :
            (if (!moveInTabu tabu_list (current, n)
                  && lt_best (objective n) acc) = true
             then some (n, objective n) else acc) = none := by
          by_contra hne
          exact scan_neighbors_ne_none objective current tabu_list bf th
            rest _ hne hnone
        have htabu : moveInTabu tabu_list (current, n) = true := by
          by_cases hc : (!moveInTabu tabu_list (current, n)
              && lt_best (objective n) acc) = true
          · rw [if_pos hc] at hacc'
            cases hacc'
          · rw [if_neg hc] at hacc'
            subst hacc'
            simp [lt_best] at hc
            exact hc
        rcases List.mem_cons.mp hm with hm | hm
        · subst hm
          exact ⟨htabu, Bool.eq_false_iff.mpr hasp⟩
        · exact ih _ hnone m hm

/-- Every candidate the scan can return is either non-tabu or met the
aspiration criterion, provided the starting candidate was non-tabu. -/
theorem scan_neighbors_some_admissible (objective : List Jadwal → ℚ)
    (current : List Jadwal) (tabu_list : List (List Jadwal × List Jadwal))
    (bf th : ℚ) (l : List (List Jadwal)) :
    ∀ acc,
      (∀ p, acc = some p → moveInTabu tabu_list (current, p.1) = false) →
      ∀ p, scan_neighbors objective current tabu_list bf th l acc = some p →
        moveInTabu tabu_list (current, p.1) = false
          ∨ aspiration_criteria bf th p.2 = true := by
  induction l with
  | nil =>
      intro acc hacc p hp
      rw [scan_neighbors] at hp
      exact Or.inl (hacc p hp)
  | cons n rest ih =>
      intro acc hacc p hp
      rw [scan_neighbors] at hp
      by_cases hasp :
          aspiration_criteria bf th (objective n) = true
      · rw [if_pos hasp] at hp
        cases hp
        exact Or.inr hasp
      · rw [if_neg hasp] at hp
        refine ih _ ?_ p hp
        intro q hq
        by_cases hc : (!moveInTabu tabu_list (current, n)
            && lt_best (objective n) acc) = true
        · rw [if_pos hc] at hq
          cases hq
          simp at hc
          exact hc.1
        · rw [if_neg hc] at hq
          exact hacc q hq

/-- In the concrete scenario used for C6, the scan finds no admissible
neighbor. -/
theorem c6_scenario_scan :
    scan_neighbors (fun _ => 1) [jA] [([jA], [jA])] 1 (1 / 10)
      [[jA]] none = none := by
  rw [scan_neighbors]
  have hasp : aspiration_criteria 1 (1 / 10) ((fun _ => (1 : ℚ)) [jA])
      = false := by
    rw [aspiration_criteria]
    norm_num
  have htabu : moveInTabu [([jA], [jA])] ([jA], ([jA] : List Jadwal))
      = true := by decide
  rw [if_neg (by rw [hasp]; exact Bool.false_ne_true)]
  rw [if_neg (by rw [htabu]; simp), scan_neighbors]

/-- In the concrete scenario used for C6, the diversification fallback
accepts the sole (tabu) neighbor. -/
theorem c6_scenario_select :
    select_neighbor (fun _ => 1) [jA] [([jA], [jA])] 1 (1 / 10)
      [[jA]] 0 = ([jA], 1) := by
  rw [select_neighbor, c6_scenario_scan]
  rfl

/-! ### Claim theorems -/

/-- Claim C3: for every solution, `calculate_fitness` lies in the half-open
interval `(0, 1]`, and it equals 1 exactly when the conflict count is 0. -/
theorem fitness_range_c3 (S : List Jadwal) :
    0 < calculate_fitness S ∧ calculate_fitness S ≤ 1 ∧
      (calculate_fitness S = 1 ↔ conflict_count S = 0) := by
  unfold calculate_fitness
  have hpos : (0 : ℚ) < 1 + conflict_count S := by positivity
  refine ⟨by positivity, ?_, ?_⟩
  · rw [div_le_one hpos]
    simp
  · rw [div_eq_one_iff_eq (ne_of_gt hpos)]
    constructor
    · intro h
      have : ((conflict_count S : ℚ)) = 0 := by linarith
      exact_mod_cast this
    · intro h
      rw [h]
      norm_num

/-- Claim C1 (code bug): both optimization loops exhaust their full budget no
matter which fitness values are recorded, because the break tests
`best_fitness <= 0` while `calculate_fitness` is always strictly positive;
in particular the conflict-free solution `[jA]` has fitness 1 and does not
trigger the break, contradicting the claimed stop-iff-conflict-free
behaviour. -/
theorem run_exhausts_budget_c1 (budget : Nat) (best : Nat → ℚ)
    (h : ∀ g, ∃ S, best g = calculate_fitness S) :
    loop_iterations budget best = budget
      ∧ calculate_fitness [jA] = 1
      ∧ stop_condition (calculate_fitness [jA]) = false := by
  have hone : calculate_fitness [jA] = 1 := by
    have : conflict_count [jA] = 0 := by decide
    rw [calculate_fitness, this]
    norm_num
  have hstopA : stop_condition (calculate_fitness [jA]) = false := by
    rw [hone, stop_condition]
    norm_num
  refine ⟨?_, hone, hstopA⟩
  induction budget generalizing best with
  | zero => rfl
  | succ n ih =>
      unfold loop_iterations
      obtain ⟨S, hS⟩ := h 0
      have hpos : 0 < best 0 := hS ▸ calculate_fitness_pos S
      have hstop : stop_condition (best 0) = false := by
        unfold stop_condition
        simp
        linarith
      rw [hstop]
      simp [ih (fun k => best (k + 1)) (fun g => h (g + 1))]
      omega

/-- Witness for C1: with a budget of 3 and the best fitness pinned at the
conflict-free value `calculate_fitness [jA] = 1`, the loop still executes
all 3 iterations. -/
theorem run_exhausts_budget_c1_witness :
    loop_iterations 3 (fun _ => calculate_fitness [jA]) = 3
      ∧ calculate_fitness [jA] = 1
      ∧ stop_condition (calculate_fitness [jA]) = false :=
  run_exhausts_budget_c1 3 (fun _ => calculate_fitness [jA])
    (fun _ => ⟨[jA], rfl⟩)

/-- Counterexample to claim C2: the entries `jA` and `jB` share the day and
the instructor and their time windows intersect, so the claimed rule counts
one conflict and fitness 1/2, but `calculate_fitness` returns 1 because the
`overlaps` test also requires equal rooms. -/
theorem calculate_fitness_c2_counterexample :
    claimed_pair_conflict jA jB = true
      ∧ claimed_fitness [jA, jB] = 1 / 2
      ∧ calculate_fitness [jA, jB] = 1 := by
  have h1 : claimed_conflict_count [jA, jB] = 1 := by decide
  have h2 : conflict_count [jA, jB] = 0 := by decide
  refine ⟨by decide, ?_, ?_⟩
  · rw [claimed_fitness, h1]
    norm_num
  · rw [calculate_fitness, h2]
    norm_num

/-- Claim C2 (amended): `calculate_fitness S = 1 / (1 + c S)` where `c`
scores each unordered pair only when day and room are shared and the time
windows intersect, giving one point for the room clash plus one more for a
shared instructor plus one more for a shared class label and semester. -/
theorem calculate_fitness_amended_c2 (S : List Jadwal) :
    calculate_fitness S = 1 / (1 + amended_conflict_count S) := by
  unfold calculate_fitness
  rw [conflict_count_eq_amended]

/-- Claim C4 (code bug): at the concrete two-entry solution `[jA, jB]`
(references 0 and 1), the room-swap neighbor of `get_neighbors` shares every
schedule-entry reference with the input and the input solution's entries are
changed by value (the rooms are swapped in place), and the time branch of
`mutate` likewise returns the very same reference list and changes the input
solution's entries by value. -/
theorem aliasing_c4 :
    (swap_ruang_step [jA, jB] [0, 1] 0 1).2 = [0, 1]
      ∧ readSolution (swap_ruang_step [jA, jB] [0, 1] 0 1).1 [0, 1]
          ≠ readSolution [jA, jB] [0, 1]
      ∧ (mutate_time_step [jA, jB] [0, 1] 0 600 720).2 = [0, 1]
      ∧ readSolution (mutate_time_step [jA, jB] [0, 1] 0 600 720).1 [0, 1]
          ≠ readSolution [jA, jB] [0, 1] := by
  decide

/-- Counterexample to claim C5: with previous current solution `[jA]` and
accepted neighbor `[jB]`, the pair pushed onto the tabu queue is
`([jB], [jB])`, not the claimed `([jA], [jB])` — neither structurally nor
under Python value equality. -/
theorem tabu_push_c5_counterexample :
    (end_iteration 5 [jA] [jB] []).2 = [([jB], [jB])]
      ∧ moveEq ([jB], [jB]) ([jA], [jB]) = false := by
  decide

/-- Claim C5 (amended): the pair pushed at the end of an iteration is
(accepted neighbor, accepted neighbor) — `current_solution` is reassigned
before the push — and the oldest queue entry is evicted once the queue
length exceeds `tabu_size`. -/
theorem tabu_push_c5_amended (tabu_size : Nat)
    (current best_neighbor : List Jadwal)
    (tabu_list : List (List Jadwal × List Jadwal)) (h : 1 ≤ tabu_size) :
    (end_iteration tabu_size current best_neighbor tabu_list).1 = best_neighbor
      ∧ (end_iteration tabu_size current best_neighbor tabu_list).2 =
          if tabu_list.length + 1 ≤ tabu_size
          then tabu_list ++ [(best_neighbor, best_neighbor)]
          else tabu_list.tail ++ [(best_neighbor, best_neighbor)] := by
  refine ⟨rfl, ?_⟩
  unfold end_iteration update_tabu_list
  simp only [List.length_append, List.length_cons, List.length_nil]
  rcases tabu_list with _ | ⟨m, rest⟩
  · simp
    omega
  · by_cases hlen : (m :: rest).length + 1 ≤ tabu_size
    · rw [if_neg (by simp at hlen ⊢; omega), if_pos hlen]
    · rw [if_pos (by simp at hlen ⊢; omega), if_neg hlen]
      simp

/-- Witness for C5 (amended): with `tabu_size = 1`, current `[jA]`, accepted
neighbor `[jB]` and a full queue, the step pushes `([jB], [jB])` and evicts
the oldest entry. -/
theorem tabu_push_c5_amended_witness :
    1 ≤ 1
      ∧ ((end_iteration 1 [jA] [jB] [([jA], [jA])]).1 = [jB]
      ∧ (end_iteration 1 [jA] [jB] [([jA], [jA])]).2 =
          if [([jA], [jA])].length + 1 ≤ 1
          then [([jA], [jA])] ++ [([jB], [jB])]
          else [([jA], [jA])].tail ++ [([jB], [jB])]) :=
  ⟨by decide, tabu_push_c5_amended 1 [jA] [jB] [([jA], [jA])] (by decide)⟩

/-- Counterexample to claim C6: with the single neighbor `[jA]` whose move
is in the tabu list and whose fitness does not meet the aspiration
criterion, the iteration still accepts `[jA]` through the diversification
fallback. -/
theorem tabu_selection_c6_counterexample :
    (select_neighbor (fun _ => 1) [jA] [([jA], [jA])] 1 (1 / 10)
        [[jA]] 0).1 = [jA]
      ∧ moveInTabu [([jA], [jA])] ([jA],
          (select_neighbor (fun _ => 1) [jA] [([jA], [jA])] 1 (1 / 10)
            [[jA]] 0).1) = true
      ∧ aspiration_criteria 1 (1 / 10)
          (select_neighbor (fun _ => 1) [jA] [([jA], [jA])] 1 (1 / 10)
            [[jA]] 0).2 = false := by
  rw [c6_scenario_select]
  refine ⟨rfl, by decide, ?_⟩
  rw [aspiration_criteria]
  norm_num

/-- Claim C6 (amended): whenever the accepted neighbor of an iteration has
its move in the tabu queue, either it met the aspiration criterion, or no
admissible neighbor existed at all — every neighbor's move was tabu and
none met the aspiration — and the neighbor came from the diversification
fallback. -/
theorem tabu_selection_c6_amended (objective : List Jadwal → ℚ)
    (current : List Jadwal) (tabu_list : List (List Jadwal × List Jadwal))
    (bf th : ℚ) (neighbors : List (List Jadwal)) (fallback : Nat)
    (h : moveInTabu tabu_list (current,
        (select_neighbor objective current tabu_list bf th neighbors
          fallback).1) = true) :
    aspiration_criteria bf th
        (select_neighbor objective current tabu_list bf th neighbors
          fallback).2 = true
      ∨ ∀ m ∈ neighbors, moveInTabu tabu_list (current, m) = true
          ∧ aspiration_criteria bf th (objective m) = false := by
  rcases hscan : scan_neighbors objective current tabu_list bf th
      neighbors none with _ | p
  · exact Or.inr
      (scan_neighbors_none_all_tabu objective current tabu_list bf th
        neighbors none hscan)
  · rw [select_neighbor, hscan] at h ⊢
    rcases scan_neighbors_some_admissible objective current tabu_list bf th
        neighbors none (by intro q hq; cases hq) p hscan with hnt | hasp
    · rw [hnt] at h
      cases h
    · exact Or.inl hasp

/-- Witness for C6 (amended): in the concrete fallback scenario the
hypothesis holds (the accepted move is tabu) and the right disjunct is
delivered — every neighbor is tabu without aspiration. -/
theorem tabu_selection_c6_witness :
    moveInTabu [([jA], [jA])] ([jA],
        (select_neighbor (fun _ => 1) [jA] [([jA], [jA])] 1 (1 / 10)
          [[jA]] 0).1) = true
      ∧ (aspiration_criteria 1 (1 / 10)
            (select_neighbor (fun _ => 1) [jA] [([jA], [jA])] 1 (1 / 10)
              [[jA]] 0).2 = true
          ∨ ∀ m ∈ [[jA]], moveInTabu [([jA], [jA])]
                (([jA] : List Jadwal), m) = true
              ∧ aspiration_criteria 1 (1 / 10) ((fun _ => (1 : ℚ)) m)
                  = false) := by
  have h : moveInTabu [([jA], [jA])] ([jA],
      (select_neighbor (fun _ => 1) [jA] [([jA], [jA])] 1 (1 / 10)
        [[jA]] 0).1) = true := by
    rw [c6_scenario_select]
    decide
  exact ⟨h, tabu_selection_c6_amended (fun _ => 1) [jA] [([jA], [jA])] 1
    (1 / 10) [[jA]] 0 h⟩

/-- Counterexample to claim C7: for population size 12 and elitism rate
5/16 (= 0.3125, exactly representable as a binary float) the product is
3.75; the code's `int()` truncates to 3 elites while the claimed `round`
gives 4. -/
theorem elitism_count_c7_counterexample :
    num_elites 12 (5 / 16) = 3 ∧ num_elites_claimed 12 (5 / 16) = 4 := by
  have h1 : ((12 : Nat) : ℚ) * (5 / 16) = 15 / 4 := by norm_num
  have h2 : (5 / 16 : ℚ) * ((12 : Nat) : ℚ) = 15 / 4 := by norm_num
  have hf : ⌊(15 / 4 : ℚ)⌋ = 3 := by
    rw [Int.floor_eq_iff]
    norm_num
  have hr : round (15 / 4 : ℚ) = 4 := by
    rw [round_eq]
    rw [show (15 / 4 : ℚ) + 1 / 2 = 17 / 4 by norm_num]
    rw [Int.floor_eq_iff]
    norm_num
  constructor
  · rw [num_elites, h1, hf]
    rfl
  · rw [num_elites_claimed, h2, hr]
    rfl

/-- Claim C7 (amended): the number of elites is
`max(2, int(population_size * elitism_rate))` — truncation, not rounding —
and the elites are the lowest-fitness members of the current population:
the population splits into the elite list plus a remainder in which every
member's fitness is at least that of every elite, and the elites form the
unchanged leading segment of the next generation. -/
theorem elitism_c7_amended (populasi offspring : List (List Jadwal))
    (rate : ℚ) (pop : Nat) (hpop : populasi.length = pop) :
    (select_elites populasi (num_elites pop rate)).length
        = min (num_elites pop rate) pop
      ∧ (∃ rest,
          populasi.Perm
            (select_elites populasi (num_elites pop rate) ++ rest)
          ∧ ∀ e ∈ select_elites populasi (num_elites pop rate),
              ∀ r ∈ rest, calculate_fitness e ≤ calculate_fitness r)
      ∧ (num_elites pop rate ≤ pop →
          (next_population (select_elites populasi (num_elites pop rate))
              offspring pop).take (num_elites pop rate)
            = select_elites populasi (num_elites pop rate)) := by
  have hperm : (populasi.mergeSort fitness_le).Perm populasi :=
    List.mergeSort_perm populasi fitness_le
  have hlen : (populasi.mergeSort fitness_le).length = pop := by
    rw [hperm.length_eq, hpop]
  have hpair : List.Pairwise (fun a b => fitness_le a b = true)
      (populasi.mergeSort fitness_le) := by
    apply List.sorted_mergeSort
    · intro a b c hab hbc
      simp only [fitness_le, decide_eq_true_eq] at hab hbc ⊢
      exact le_trans hab hbc
    · intro a b
      simp only [fitness_le, Bool.or_eq_true, decide_eq_true_eq]
      exact le_total _ _
  have hsplit := List.take_append_drop (num_elites pop rate)
    (populasi.mergeSort fitness_le)
  have hlentake : (select_elites populasi (num_elites pop rate)).length
      = min (num_elites pop rate) pop := by
    rw [select_elites, List.length_take, hlen]
  refine ⟨hlentake, ?_, ?_⟩
  · refine ⟨(populasi.mergeSort fitness_le).drop (num_elites pop rate),
      ?_, ?_⟩
    · rw [select_elites, hsplit]
      exact hperm.symm
    · intro e he r hr
      rw [← hsplit] at hpair
      have := (List.pairwise_append.mp hpair).2.2 e he r hr
      simpa [fitness_le] using this
  · intro hle
    rw [next_population, List.take_take, min_eq_left hle]
    exact List.take_left' (by rw [hlentake, min_eq_left hle])

/-- Witness for C7 (amended): the two-member population `[[jA], [jB]]` with
elitism rate 1/2 keeps `max(2, int(1)) = 2` elites, which split off the
whole population and head the next generation. -/
theorem elitism_c7_amended_witness :
    ([[jA], [jB]] : List (List Jadwal)).length = 2
      ∧ ((select_elites [[jA], [jB]] (num_elites 2 (1 / 2))).length
            = min (num_elites 2 (1 / 2)) 2
        ∧ (∃ rest,
            ([[jA], [jB]] : List (List Jadwal)).Perm
              (select_elites [[jA], [jB]] (num_elites 2 (1 / 2)) ++ rest)
            ∧ ∀ e ∈ select_elites [[jA], [jB]] (num_elites 2 (1 / 2)),
                ∀ r ∈ rest, calculate_fitness e ≤ calculate_fitness r)
        ∧ (num_elites 2 (1 / 2) ≤ 2 →
            (next_population
                (select_elites [[jA], [jB]] (num_elites 2 (1 / 2)))
                [] 2).take (num_elites 2 (1 / 2))
              = select_elites [[jA], [jB]] (num_elites 2 (1 / 2)))) :=
  ⟨rfl, elitism_c7_amended [[jA], [jB]] [] (1 / 2) 2 rfl⟩

/-- Counterexample to claim C8: with a well-formed population of 3
solutions — population size within the documented range — tournament
selection raises (`random.sample` with the default tournament size 5), and
crossover raises on single-entry parents (`random.randint(1, 0)`),
contradicting the claimed absence of runtime failures. -/
theorem runtime_failure_c8_counterexample :
    tournament_selection [[jA], [jB], [jC]] 5 []
        = .error "Sample larger than population or is negative"
      ∧ crossover 1 (1 / 2) 1 [jA] [jB]
          = .error "empty range in randrange(1, 0)" := by
  constructor
  · rw [tournament_selection, if_pos (by decide)]
  · rw [crossover, if_neg (by norm_num), if_pos (by decide)]

/-- Claim C8 (amended): within the documented parameter ranges the engine
has runtime failure points beyond construction-time validation —
tournament selection raises whenever the population is smaller than the
tournament size, and crossover raises on parents with fewer than 2 entries;
away from those two conditions (and with a nonempty sample) both operators
return normally. -/
theorem runtime_failure_c8_amended (populasi sample : List (List Jadwal))
    (tournament_size : Nat) (rate r : ℚ) (point : Nat)
    (p1 p2 : List Jadwal)
    (h1 : tournament_size ≤ populasi.length) (h2 : sample ≠ [])
    (h3 : 2 ≤ p1.length) :
    (∃ s, tournament_selection populasi tournament_size sample = .ok s)
      ∧ ∃ c, crossover rate r point p1 p2 = .ok c := by
  constructor
  · rw [tournament_selection, if_neg (by omega)]
    rcases sample with _ | ⟨x, xs⟩
    · exact absurd rfl h2
    · exact ⟨_, rfl⟩
  · rw [crossover]
    by_cases hc : rate < r
    · rw [if_pos hc]
      exact ⟨_, rfl⟩
    · rw [if_neg hc, if_neg (by omega)]
      exact ⟨_, rfl⟩

/-- Witness for C8 (amended): with a population of 5 solutions, the default
tournament size 5, a nonempty sample and two-entry parents, both operators
return normally. -/
theorem runtime_failure_c8_amended_witness :
    (5 : Nat) ≤ ([[jA], [jB], [jC], [jA], [jB]] :
        List (List Jadwal)).length
      ∧ ([[jA]] : List (List Jadwal)) ≠ []
      ∧ 2 ≤ ([jA, jB] : List Jadwal).length
      ∧ ((∃ s, tournament_selection [[jA], [jB], [jC], [jA], [jB]] 5 [[jA]]
            = .ok s)
        ∧ ∃ c, crossover (4 / 5) (1 / 2) 1 [jA, jB] [jB, jA] = .ok c) :=
  ⟨by decide, by decide, by decide,
    runtime_failure_c8_amended [[jA], [jB], [jC], [jA], [jB]] [[jA]] 5
      (4 / 5) (1 / 2) 1 [jA, jB] [jB, jA] (by decide) (by decide)
      (by decide)⟩

/-- Counterexample to claim C9: the parents `[jA, jB]` and `[jC, jB]`
differ (at position 0), the parent length is 2 so the only valid cut index
is 1, and crossover with rate 1.0 returns both children identical to the
corresponding parents — no entry position changed. -/
theorem crossover_c9_counterexample :
    crossover 1 (1 / 2) 1 [jA, jB] [jC, jB] = .ok ([jA, jB], [jC, jB])
      ∧ ([jA, jB] : List Jadwal) ≠ [jC, jB] := by
  constructor
  · rw [crossover, if_neg (by norm_num), if_neg (by decide)]
    rfl
  · decide

/-- Claim C9 (amended): with `crossover_rate = 1.0` the splice branch is
always taken, both children have length N, and each child copies its own
parent strictly below the cut point and the other parent from the cut point
on — so a child differs from its corresponding parent exactly where the
parents differ at or after the cut, and when the parents differ only before
the cut both children equal their corresponding parents. -/
theorem crossover_c9_amended (r : ℚ) (point : Nat) (p1 p2 : List Jadwal)
    (hr : r ≤ 1) (hlen : p2.length = p1.length) (hp1 : 1 ≤ point)
    (hp2 : point ≤ p1.length - 1) :
    ∃ c1 c2, crossover 1 r point p1 p2 = .ok (c1, c2)
      ∧ c1.length = p1.length ∧ c2.length = p1.length
      ∧ (∀ k, k < point → c1[k]? = p1[k]? ∧ c2[k]? = p2[k]?)
      ∧ (∀ k, point ≤ k → c1[k]? = p2[k]? ∧ c2[k]? = p1[k]?) := by
  have hN : 2 ≤ p1.length := by omega
  have hpt : point ≤ p1.length := by omega
  have hpt2 : point ≤ p2.length := by omega
  refine ⟨p1.take point ++ p2.drop point, p2.take point ++ p1.drop point,
    ?_, ?_, ?_, ?_, ?_⟩
  · rw [crossover, if_neg (by intro h; exact absurd (le_of_lt h) (by linarith)),
      if_neg (by omega)]
  · rw [List.length_append, List.length_take, List.length_drop]
    omega
  · rw [List.length_append, List.length_take, List.length_drop]
    omega
  · intro k hk
    constructor
    · rw [List.getElem?_append]
      rw [if_pos (by rw [List.length_take]; omega)]
      rw [List.getElem?_take, if_pos hk]
    · rw [List.getElem?_append]
      rw [if_pos (by rw [List.length_take]; omega)]
      rw [List.getElem?_take, if_pos hk]
  · intro k hk
    constructor
    · rw [List.getElem?_append_right (by rw [List.length_take]; omega)]
      rw [List.length_take, List.getElem?_drop]
      congr 1
      omega
    · rw [List.getElem?_append_right (by rw [List.length_take]; omega)]
      rw [List.length_take, List.getElem?_drop]
      congr 1
      omega

/-- Witness for C9 (amended): at the concrete parents `[jA, jB]` and
`[jC, jB]` with cut index 1, the splice is performed and the children are
characterized positionwise. -/
theorem crossover_c9_amended_witness :
    (1 / 2 : ℚ) ≤ 1
      ∧ ([jC, jB] : List Jadwal).length = ([jA, jB] : List Jadwal).length
      ∧ 1 ≤ 1
      ∧ 1 ≤ ([jA, jB] : List Jadwal).length - 1
      ∧ (∃ c1 c2, crossover 1 (1 / 2) 1 [jA, jB] [jC, jB] = .ok (c1, c2)
          ∧ c1.length = ([jA, jB] : List Jadwal).length
          ∧ c2.length = ([jA, jB] : List Jadwal).length
          ∧ (∀ k, k < 1 → c1[k]? = ([jA, jB] : List Jadwal)[k]?
              ∧ c2[k]? = ([jC, jB] : List Jadwal)[k]?)
          ∧ (∀ k, 1 ≤ k → c1[k]? = ([jC, jB] : List Jadwal)[k]?
              ∧ c2[k]? = ([jA, jB] : List Jadwal)[k]?)) :=
  ⟨by norm_num, by decide, by decide, by decide,
    crossover_c9_amended (1 / 2) 1 [jA, jB] [jC, jB] (by norm_num)
      (by decide) (by decide) (by decide)⟩

/-- Claim C10: every entry produced by the random solution generator has
its room in the hard-coded 15-room pool, every entry after a room mutation
has its room in the same pool, and the catalog's `ruang_kuliah` field is
never consulted — two catalogs whose semester buckets agree generate
identical solutions under the same randomness, whatever their
`ruang_kuliah`. -/
theorem rooms_fixed_c10 (data d1 d2 : CatalogData) (o : Nat → Nat → Nat)
    (j : Jadwal) (k : Nat)
    (h2 : d1.semester_2 = d2.semester_2)
    (h4 : d1.semester_4 = d2.semester_4)
    (h6 : d1.semester_6 = d2.semester_6) :
    (∀ e ∈ generate_random_jadwal data o, e.ruang ∈ ruang_list)
      ∧ (apply_mutation j (.room k)).ruang ∈ ruang_list
      ∧ generate_random_jadwal d1 o = generate_random_jadwal d2 o := by
  refine ⟨?_, ?_, ?_⟩
  · intro e he
    rw [generate_random_jadwal] at he
    rcases List.mem_map.mp he with ⟨p, _, hp⟩
    rw [← hp]
    exact choice_mem ruang_list "301" _ (by decide)
  · exact choice_mem ruang_list "301" _ (by decide)
  · rw [generate_random_jadwal, generate_random_jadwal, h2, h4, h6]

/-- Witness for C10: the concrete catalogs `catalog1` and `catalog2` agree
on all three semester buckets and differ in `ruang_kuliah`, yet generate
identical solutions; rooms always come from the fixed pool. -/
theorem rooms_fixed_c10_witness :
    catalog1.semester_2 = catalog2.semester_2
      ∧ catalog1.semester_4 = catalog2.semester_4
      ∧ catalog1.semester_6 = catalog2.semester_6
      ∧ catalog1.ruang_kuliah ≠ catalog2.ruang_kuliah
      ∧ ((∀ e ∈ generate_random_jadwal catalog1 (fun _ _ => 0),
            e.ruang ∈ ruang_list)
        ∧ (apply_mutation jA (.room 0)).ruang ∈ ruang_list
        ∧ generate_random_jadwal catalog1 (fun _ _ => 0)
            = generate_random_jadwal catalog2 (fun _ _ => 0)) :=
  ⟨rfl, rfl, rfl, by decide,
    rooms_fixed_c10 catalog1 catalog1 catalog2 (fun _ _ => 0) jA 0
      rfl rfl rfl⟩

end Penjadwalan
